import Mathlib

/-!
Verification development for the streflopx repository: a shallow embedding of
the golden-file cross-run comparison engine (compareFloats.cpp, compare_floats.cpp),
the trace recorder (arithmeticTest.cpp and its variants), and the per-backend
floating-point control-state layer (FPUSettings.arm64.h and the FPU settings
header), together with theorems settling the frozen claims about them.

Machine integers are modelled as Nat with explicit reductions modulo 2^w where
the C++ code relies on fixed-width behaviour; raw bytes are List Nat in memory
order; fallible paths return Option.
-/

namespace Streflop

/-! ## Byte-level helpers

The comparison tools interpret raw bytes with memcpy on the little-endian hosts
they target; bytesToNat is that interpretation (byte 0 is least significant). -/

def bytesToNat : List Nat → Nat
  | [] => 0
  | b :: rest => b + 256 * bytesToNat rest

/-- Embedding of bytesToUint64 (compareFloats.cpp lines 108-113): clamp the
size to 8, memcpy that many bytes into a zero-initialised uint64. -/
def bytesToUint64 (bytes : List Nat) (dataSize : Nat) : Nat :=
  bytesToNat (bytes.take (min dataSize 8)) % 2 ^ 64

/-! ## IEEE-754 bit-pattern predicates

These capture what std::isnan and float equality compute on the bit pattern
obtained by memcpy from the raw bytes. -/

def isNaN32 (p : Nat) : Bool :=
  ((p >>> 23) &&& 0xFF == 0xFF) && (p &&& 0x7FFFFF != 0)

def isNaN64 (p : Nat) : Bool :=
  ((p >>> 52) &&& 0x7FF == 0x7FF) && (p &&& 0xFFFFFFFFFFFFF != 0)

/-- NaN test for the 80-bit x87 extended format (sign 1, exponent 15,
integer bit 1, fraction 63): exponent all ones and nonzero fraction. -/
def isNaN80 (p : Nat) : Bool :=
  ((p >>> 64) &&& 0x7FFF == 0x7FFF) && (p &&& 0x7FFFFFFFFFFFFFFF != 0)

def isZero32 (p : Nat) : Bool := p == 0 || p == 0x80000000

def isZero64 (p : Nat) : Bool := p == 0 || p == 0x8000000000000000

/-- IEEE equality of two binary32 patterns, as the C++ comparison a == b on
the decoded floats: false if either is NaN, else equal patterns or both zeros. -/
def floatEq32 (a b : Nat) : Bool :=
  !isNaN32 a && !isNaN32 b && (a == b || (isZero32 a && isZero32 b))

def floatEq64 (a b : Nat) : Bool :=
  !isNaN64 a && !isNaN64 b && (a == b || (isZero64 a && isZero64 b))

/-- Reinterpretation of a 32-bit pattern as a signed int32, as the memcpy into
int32_t in floatUlpDiff. -/
def toInt32 (p : Nat) : Int :=
  if p % 2 ^ 32 < 2 ^ 31 then (p % 2 ^ 32 : Nat) else (p % 2 ^ 32 : Nat) - 2 ^ 32

def toInt64 (p : Nat) : Int :=
  if p % 2 ^ 64 < 2 ^ 63 then (p % 2 ^ 64 : Nat) else (p % 2 ^ 64 : Nat) - 2 ^ 64

def INT32_MAX : Int := 2147483647

def INT64_MAX : Int := 9223372036854775807

/-- Embedding of floatUlpDiff (compareFloats.cpp lines 116-127) on the two
32-bit patterns: 0 on float equality, INT32_MAX on NaN or differing sign bit,
otherwise the absolute difference of the patterns as signed int32. -/
def floatUlpDiff (a b : Nat) : Int :=
  if floatEq32 a b then 0
  else if isNaN32 a || isNaN32 b then INT32_MAX
  else if (toInt32 a < 0) ↔ (toInt32 b < 0) then |toInt32 a - toInt32 b|
  else INT32_MAX

/-- Embedding of doubleUlpDiff (compareFloats.cpp lines 130-141). -/
def doubleUlpDiff (a b : Nat) : Int :=
  if floatEq64 a b then 0
  else if isNaN64 a || isNaN64 b then INT64_MAX
  else if (toInt64 a < 0) ↔ (toInt64 b < 0) then |toInt64 a - toInt64 b|
  else INT64_MAX

/-! ## FloatData and the comparator -/

/-- Embedding of struct FloatData: raw bytes plus the declared element width. -/
structure FloatData where
  rawData : List Nat
  dataSize : Nat
  deriving DecidableEq, Repr

/-- Embedding of isNaN(bytes, dataSize) (compareFloats.cpp lines 35-51):
memcpy into float for size 4, into double for size 8; any other size is
considered not NaN. -/
def isNaN (bytes : List Nat) (dataSize : Nat) : Bool :=
  if dataSize == 4 then isNaN32 (bytesToNat (bytes.take 4))
  else if dataSize == 8 then isNaN64 (bytesToNat (bytes.take 8))
  else false

/-- Embedding of compareFloats (compareFloats.cpp lines 143-180): size
mismatch is false; two NaNs are an exact match; one NaN is a mismatch;
identical raw bytes are an exact match; otherwise ULP comparison by width,
with sizes other than 4 and 8 compared as uint64 of the low 8 bytes. -/
def compareFloats (a b : FloatData) (maxUlpDiff : Int) : Bool :=
  if a.dataSize != b.dataSize then false
  else if isNaN a.rawData a.dataSize && isNaN b.rawData b.dataSize then true
  else if isNaN a.rawData a.dataSize || isNaN b.rawData b.dataSize then false
  else if a.rawData.take a.dataSize == b.rawData.take a.dataSize then true
  else if a.dataSize == 4 then
    decide (floatUlpDiff (bytesToNat (a.rawData.take 4)) (bytesToNat (b.rawData.take 4)) ≤ maxUlpDiff)
  else if a.dataSize == 8 then
    decide (doubleUlpDiff (bytesToNat (a.rawData.take 8)) (bytesToNat (b.rawData.take 8)) ≤ maxUlpDiff)
  else
    decide (|toInt64 ((bytesToUint64 a.rawData a.dataSize + 2 ^ 64 -
      bytesToUint64 b.rawData b.dataSize) % 2 ^ 64)| ≤ maxUlpDiff)

/-- Embedding of the per-index count update in compareFiles
(compareFloats.cpp lines 245-252): counts are (exactMatches, nearMatches,
differences); a passing compareFloats increments exactMatches, a failing one
increments differences; nearMatches is not touched by any branch. -/
def updateCounts (baseline x : FloatData) (maxUlpDiff : Int)
    (c : Nat × Nat × Nat) : Nat × Nat × Nat :=
  if compareFloats baseline x maxUlpDiff then (c.1 + 1, c.2.1, c.2.2)
  else (c.1, c.2.1, c.2.2 + 1)

/-! ## File gathering before comparison -/

/-- Embedding of the file-gathering loop of compareFiles in compareFloats.cpp
(lines 192-211): a file whose read produced no data is skipped; every file with
nonempty data is retained, with no check on its element count. -/
def gatherValid (files : List (List FloatData)) : List (List FloatData) :=
  files.filter (fun d => !d.isEmpty)

/-- Embedding of the file-gathering loop of compareFiles in the part_003
variant (lines 76-87): empty reads are skipped; the first nonempty file fixes
dataSize; a later nonempty file with a different element count makes the whole
function return at once (modelled as none). The accumulator is allData. -/
def gatherSameSize {α : Type} : List (List α) → Nat → List (List α) → Option (List (List α))
  | [], _, acc => some acc
  | d :: rest, dataSize, acc =>
    if d.isEmpty then gatherSameSize rest dataSize acc
    else if dataSize = 0 then gatherSameSize rest d.length (acc ++ [d])
    else if d.length = dataSize then gatherSameSize rest dataSize (acc ++ [d])
    else none

/-- Top-level entry of the part_003 gathering loop: dataSize starts at 0 and
allData starts empty. -/
def gatherFiles {α : Type} (files : List (List α)) : Option (List (List α)) :=
  gatherSameSize files 0 []

/-- Specification-side restatement of what gatherFiles computes, for the
amended C3: the nonempty files are kept only when they all share the first
nonempty file element count; any mismatch aborts the whole category. -/
def gatherFilesSpec {α : Type} (files : List (List α)) : Option (List (List α)) :=
  match files.filter (fun d => !d.isEmpty) with
  | [] => some []
  | d :: rest =>
    if (d :: rest).all (fun e => e.length == d.length) then some (d :: rest) else none

/-! ## The per-index comparison loop with unchecked indexing

The source loop (compareFloats.cpp lines 241-252 and 653-668) iterates i over
the baseline indices and reads allData[j][i] for every other file j with no
bounds check; the embedding indexes through Option so an out-of-bounds access
yields none. -/

/-- One index i of the inner loop over the non-baseline files. -/
def compareRow (bv : FloatData) (others : List (List FloatData)) (i : Nat)
    (maxUlpDiff : Int) : Option (List Bool) :=
  match others with
  | [] => some []
  | d :: rest =>
    match d.get? i, compareRow bv rest i maxUlpDiff with
    | some x, some l => some (compareFloats bv x maxUlpDiff :: l)
    | _, _ => none

/-- The outer loop over the baseline elements, i counting up from the given
start index. -/
def compareRows (others : List (List FloatData)) (maxUlpDiff : Int) :
    List FloatData → Nat → Option (List (List Bool))
  | [], _ => some []
  | bv :: rest, i =>
    match compareRow bv others i maxUlpDiff, compareRows others maxUlpDiff rest (i + 1) with
    | some r, some rs => some (r :: rs)
    | _, _ => none

/-- Embedding of the whole per-index loop: file 0 is the baseline, every other
file is indexed at each baseline index. -/
def compareLoop (allData : List (List FloatData)) (maxUlpDiff : Int) :
    Option (List (List Bool)) :=
  match allData with
  | [] => some []
  | baseline :: others => compareRows others maxUlpDiff baseline 0

/-! ## GoldenFileCodec: element byte order

writeFloat (arithmeticTest.cpp lines 84-101) writes the in-memory bytes
reversed on a little-endian host and unchanged on a big-endian host, so the
file always holds the pattern most-significant-byte first. The endian-aware
read path (compareFloats.cpp lines 436-472) reverses the file bytes back on a
little-endian host; the other read path (lines 76-105) stores the file bytes
unchanged. A value is abstractly its bit pattern as a byte list MSB first;
memOfPattern gives its in-memory representation on a host. -/

def writeFloat (mem : List Nat) (littleEndian : Bool) : List Nat :=
  if littleEndian then mem.reverse else mem

def readElement (fileBytes : List Nat) (littleEndian : Bool) : List Nat :=
  if littleEndian then fileBytes.reverse else fileBytes

def readElementRaw (fileBytes : List Nat) : List Nat := fileBytes

def memOfPattern (littleEndian : Bool) (pattern : List Nat) : List Nat :=
  if littleEndian then pattern.reverse else pattern

def patternOfMem (littleEndian : Bool) (mem : List Nat) : List Nat :=
  if littleEndian then mem.reverse else mem

/-! ## FileHeader -/

/-- Embedding of struct FileHeader (pack(1)): char magic[4] and five uint32
fields. -/
structure FileHeader where
  magic : List Nat
  version : Nat
  dataType : Nat
  dataSize : Nat
  elementCount : Nat
  extraFlags : Nat
  deriving Repr

/-- Serialisation of a uint32 field by memcpy on a little-endian host. -/
def u32leBytes (n : Nat) : List Nat :=
  [n % 256, n / 256 % 256, n / 65536 % 256, n / 16777216 % 256]

/-- Byte image of the packed FileHeader as written by
of.write(reinterpret_cast, sizeof(FileHeader)): 4 magic bytes then the five
packed uint32 fields. -/
def headerBytes (h : FileHeader) : List Nat :=
  (h.magic ++ [0, 0, 0, 0]).take 4 ++ u32leBytes h.version ++ u32leBytes h.dataType ++
    u32leBytes h.dataSize ++ u32leBytes h.elementCount ++ u32leBytes h.extraFlags

/-- A golden file is the header image immediately followed by the payload. -/
def goldenFileBytes (h : FileHeader) (payload : List Nat) : List Nat :=
  headerBytes h ++ payload

/-- Embedding of writeFileHeader (arithmeticTest.cpp lines 71-82): magic is
the literal SREF, version 1. -/
def writeFileHeader (dataType dataSize elementCount extraFlags : Nat) : FileHeader :=
  { magic := [0x53, 0x52, 0x45, 0x46], version := 1, dataType := dataType,
    dataSize := dataSize, elementCount := elementCount, extraFlags := extraFlags }

/-! ## TraceRecorder: the edge-case sequence

doTest (arithmeticTest.cpp lines 188-230, identically part_000 lines 142-184)
writes the header with elementCount 10003 and then records: 5000 iterations of
f *= 0.1 each followed by writeFloat; 5000 iterations of f *= 10.0001 each
followed by writeFloat; then five more writeFloat calls: one divided by +0,
one divided by -0, inf*0, inf-inf (as the sum of the previous two quotients)
and 0 divided by 0. Floating-point arithmetic itself is kept
abstract in a FloatModel; only the sequence of recorded values matters for the
claim about counts. -/

structure FloatModel (α : Type) where
  mul : α → α → α
  add : α → α → α
  div : α → α → α
  lit01 : α
  lit10001 : α
  one : α
  zero : α
  posZero : α
  negZero : α

/-- The loop pattern f = mul f c; writeFloat f, iterated n times: the list of
recorded values. -/
def mulLoop {α : Type} (M : FloatModel α) (c : α) : Nat → α → List α
  | 0, _ => []
  | n + 1, f =>
    let f2 := M.mul f c
    f2 :: mulLoop M c n f2

/-- The full list of element records written to the edge-case (nan) file by
doTest after its header. -/
def edgeCaseTrace {α : Type} (M : FloatModel α) : List α :=
  let denormals := mulLoop M M.lit01 5000 M.lit01
  let overflows := mulLoop M M.lit10001 5000 M.lit10001
  let posInf := M.div M.one M.posZero
  let negInf := M.div M.one M.negZero
  let nanTimesZero := M.mul negInf M.zero
  let nanInfMinusInf := M.add (M.div M.one M.posZero) (M.div M.one M.negZero)
  let nanZeroDivZero := M.div M.posZero M.posZero
  denormals ++ overflows ++ [posInf, negInf, nanTimesZero, nanInfMinusInf, nanZeroDivZero]

/-- The header written for the edge-case file: writeFileHeader(infnanfile,
10003, 1). -/
def edgeCaseHeader (dataType dataSize : Nat) : FileHeader :=
  writeFileHeader dataType dataSize 10003 1

/-! ## FPEnvironmentBackend rounding-mode layer

The x87-layout rounding-mode enum shared by the X87, SSE and SOFT sections of
the FPU settings header and by FPUSettings.arm64.h. -/

def FE_TONEAREST : Nat := 0x0000

def FE_DOWNWARD : Nat := 0x0400

def FE_UPWARD : Nat := 0x0800

def FE_TOWARDZERO : Nat := 0x0C00

/-- Embedding of fesetround of FPUSettings.arm64.h (lines 63-69): clear FPCR
bits 22-23, then or in (roundMode & 0xC00) shifted left by 12. The complement
of 0xC00000 inside a uint64 is written out as a mask. -/
def arm64_fesetround (fpcr roundMode : Nat) : Nat :=
  (fpcr &&& 0xFFFFFFFFFF3FFFFF) ||| ((roundMode &&& 0xC00) <<< 12)

/-- Embedding of fegetround of FPUSettings.arm64.h (lines 57-60): return
(fpcr & 0xC00000) shifted right by 22. -/
def arm64_fegetround (fpcr : Nat) : Nat :=
  (fpcr &&& 0xC00000) >>> 22

/-- Embedding of the X87 fesetround (FPU settings header lines 252-259):
returns the new 16-bit control word and the C return value, which is always 0. -/
def x87_fesetround (fpuMode roundMode : Nat) : Nat × Nat :=
  (((fpuMode &&& 0xF3FF) ||| roundMode) % 2 ^ 16, 0)

/-- Embedding of the X87 fegetround (lines 245-249). -/
def x87_fegetround (fpuMode : Nat) : Nat :=
  fpuMode &&& 0x0C00

/-- Embedding of the SSE fesetround (lines 369-376): always returns 0. -/
def sse_fesetround (sseMode roundMode : Nat) : Nat × Nat :=
  (((sseMode &&& 0xFFFF9FFF) ||| (roundMode <<< 3)) % 2 ^ 32, 0)

/-- Embedding of the SSE fegetround (lines 362-366). -/
def sse_fegetround (sseMode : Nat) : Nat :=
  (sseMode >>> 3) &&& 0xC00

/-- The NEON rounding-mode constants of the STREFLOP_NEON section (FPU
settings header lines 183-198), already placed at FPCR bits 22-23. -/
def NEON_FE_TONEAREST : Nat := 0

def NEON_FE_UPWARD : Nat := 1 <<< 22

def NEON_FE_DOWNWARD : Nat := 2 <<< 22

def NEON_FE_TOWARDZERO : Nat := 3 <<< 22

def NEON_FE_ROUND_MASK : Nat := 3 <<< 22

/-- Embedding of the NEON fesetround (lines 631-637): clear the mask bits, or
the mode in, always return 0. -/
def neon_fesetround (fpcr roundMode : Nat) : Nat × Nat :=
  ((fpcr &&& 0xFFFFFFFFFF3FFFFF) ||| roundMode, 0)

/-- Embedding of the NEON fegetround (lines 625-628). -/
def neon_fegetround (fpcr : Nat) : Nat :=
  fpcr &&& NEON_FE_ROUND_MASK

/-- Abstract tokens for the SoftFloat rounding-mode constants declared in
softfloat.h, which is outside the given sources; only their distinctness
matters to the switch in the SOFT backend. -/
inductive SoftRoundMode where
  | nearestEven
  | down
  | up
  | toZero
  deriving DecidableEq, Repr

/-- Embedding of the SOFT fesetround (FPU settings header lines 515-525): the
four defined modes update float_rounding_mode and return 0; any other value
leaves the state unchanged and returns 1. -/
def soft_fesetround (roundMode : Nat) (cur : SoftRoundMode) : SoftRoundMode × Nat :=
  if roundMode = FE_DOWNWARD then (SoftRoundMode.down, 0)
  else if roundMode = FE_UPWARD then (SoftRoundMode.up, 0)
  else if roundMode = FE_TOWARDZERO then (SoftRoundMode.toZero, 0)
  else if roundMode = FE_TONEAREST then (SoftRoundMode.nearestEven, 0)
  else (cur, 1)

/-- Embedding of the SOFT fegetround (lines 502-512). -/
def soft_fegetround (cur : SoftRoundMode) : Nat :=
  match cur with
  | SoftRoundMode.down => FE_DOWNWARD
  | SoftRoundMode.up => FE_UPWARD
  | SoftRoundMode.toZero => FE_TOWARDZERO
  | SoftRoundMode.nearestEven => FE_TONEAREST

/-! ## Spec-side sign predicates on bit patterns

A non-NaN IEEE value is strictly positive exactly when its sign bit is clear
and it is not a zero pattern, and strictly negative exactly when its sign bit
is set and it is not the negative-zero pattern. -/

def isPos32 (p : Nat) : Prop := p < 2 ^ 31 ∧ p ≠ 0 ∧ isNaN32 p = false

def isNeg32 (p : Nat) : Prop :=
  2 ^ 31 ≤ p ∧ p < 2 ^ 32 ∧ p ≠ 2 ^ 31 ∧ isNaN32 p = false

def isPos64 (p : Nat) : Prop := p < 2 ^ 63 ∧ p ≠ 0 ∧ isNaN64 p = false

def isNeg64 (p : Nat) : Prop :=
  2 ^ 63 ≤ p ∧ p < 2 ^ 64 ∧ p ≠ 2 ^ 63 ∧ isNaN64 p = false

def isPos80 (p : Nat) : Prop := p < 2 ^ 79 ∧ p ≠ 0 ∧ isNaN80 p = false

def isNeg80 (p : Nat) : Prop :=
  2 ^ 79 ≤ p ∧ p < 2 ^ 80 ∧ p ≠ 2 ^ 79 ∧ isNaN80 p = false

/-! ## Concrete records used by the concrete-input theorems -/

/-- The scenario B baseline: double with bit pattern 0x3FF0000000000000, raw
bytes in little-endian memory order. -/
def scenarioBBaseline : FloatData := ⟨[0, 0, 0, 0, 0, 0, 0xF0, 0x3F], 8⟩

/-- The scenario B comparison value: double with bit pattern
0x3FF0000000000001. -/
def scenarioBComparison : FloatData := ⟨[1, 0, 0, 0, 0, 0, 0xF0, 0x3F], 8⟩

/-- A width-10 record whose 80-bit pattern 0x7FFFC000000000000000 is an
extended-precision quiet NaN. -/
def extNaNRecordA : FloatData := ⟨[0, 0, 0, 0, 0, 0, 0, 0xC0, 0xFF, 0x7F], 10⟩

/-- A width-10 record whose 80-bit pattern 0x7FFFC000000000010000 is an
extended-precision NaN with a different payload. -/
def extNaNRecordB : FloatData := ⟨[0, 0, 1, 0, 0, 0, 0, 0xC0, 0xFF, 0x7F], 10⟩

/-- A small width-4 record used by the unchecked-indexing instances. -/
def sampleRecord : FloatData := ⟨[0, 0, 0, 0], 4⟩

/-- A width-10 record holding extended-precision +1.0: 80-bit pattern
0x3FFF8000000000000000 (sign 0, biased exponent 0x3FFF, explicit integer bit
1, fraction 0), raw bytes in little-endian memory order. -/
def extOneRecord : FloatData := ⟨[0, 0, 0, 0, 0, 0, 0, 0x80, 0xFF, 0x3F], 10⟩

/-- A width-10 record holding extended-precision -1.0: 80-bit pattern
0xBFFF8000000000000000, identical to +1.0 in its low 8 bytes. -/
def extMinusOneRecord : FloatData := ⟨[0, 0, 0, 0, 0, 0, 0, 0x80, 0xFF, 0xBF], 10⟩

/-! ## Helper lemmas -/

theorem mulLoop_length {α : Type} (M : FloatModel α) (c : α) :
    ∀ (n : Nat) (f : α), (mulLoop M c n f).length = n := by
  intro n
  induction n with
  | zero => intro f; rfl
  | succ k ih => intro f; simp [mulLoop, ih]

theorem lor_land_distrib (a b c : Nat) :
    (a ||| b) &&& c = (a &&& c) ||| (b &&& c) := by
  apply Nat.eq_of_testBit_eq
  intro i
  simp only [Nat.testBit_land, Nat.testBit_lor]
  cases a.testBit i <;> cases b.testBit i <;> cases c.testBit i <;> rfl

theorem all_filter_nonempty {α : Type} (q : List α → Bool) :
    ∀ l : List (List α),
      (l.filter (fun d => !d.isEmpty)).all q = l.all (fun d => d.isEmpty || q d) := by
  intro l
  induction l with
  | nil => rfl
  | cons d rest ih =>
    by_cases hd : d.isEmpty
    · simp [List.filter_cons, hd, ih]
    · simp [List.filter_cons, hd, ih]

theorem gatherSameSize_pos {α : Type} :
    ∀ (files : List (List α)) (dataSize : Nat) (acc : List (List α)),
      dataSize ≠ 0 →
      gatherSameSize files dataSize acc =
        if files.all (fun d => d.isEmpty || d.length == dataSize)
        then some (acc ++ files.filter (fun d => !d.isEmpty)) else none := by
  intro files
  induction files with
  | nil => intro dataSize acc _; simp [gatherSameSize]
  | cons d rest ih =>
    intro dataSize acc h
    by_cases hd : d.isEmpty
    · have hstep : gatherSameSize (d :: rest) dataSize acc = gatherSameSize rest dataSize acc := by
        simp [gatherSameSize, hd]
      have hc : (d.isEmpty || d.length == dataSize) = true := by simp [hd]
      rw [hstep, ih dataSize acc h, List.all_cons,
        List.filter_cons_of_neg (by simp [hd]), hc, Bool.true_and]
    · by_cases hl : d.length = dataSize
      · have hstep : gatherSameSize (d :: rest) dataSize acc =
            gatherSameSize rest dataSize (acc ++ [d]) := by
          simp [gatherSameSize, hd, h, hl]
        have hc : (d.isEmpty || d.length == dataSize) = true := by simp [hl]
        rw [hstep, ih dataSize (acc ++ [d]) h, List.all_cons,
          List.filter_cons_of_pos (by simp [hd]), hc, Bool.true_and,
          List.append_assoc, List.singleton_append]
      · have hstep : gatherSameSize (d :: rest) dataSize acc = none := by
          simp [gatherSameSize, hd, h, hl]
        have hc : (d.isEmpty || d.length == dataSize) = false := by simp [hd, hl]
        rw [hstep, List.all_cons, hc, Bool.false_and, if_neg]
        exact fun hcontra => Bool.false_ne_true hcontra

theorem compareRow_isSome (bv : FloatData) (maxUlpDiff : Int) :
    ∀ (others : List (List FloatData)) (i : Nat),
      (∀ d ∈ others, i < d.length) → (compareRow bv others i maxUlpDiff).isSome := by
  intro others
  induction others with
  | nil => intro i _; rfl
  | cons d rest ih =>
    intro i h
    have hd : i < d.length := h d (List.mem_cons_self d rest)
    have hget : d.get? i = some (d.get ⟨i, hd⟩) := List.get?_eq_get hd
    have hrest := ih i (fun e he => h e (List.mem_cons_of_mem d he))
    obtain ⟨l, hl⟩ := Option.isSome_iff_exists.mp hrest
    simp only [compareRow]
    rw [hget, hl]
    rfl

theorem compareRows_isSome (maxUlpDiff : Int) (others : List (List FloatData)) :
    ∀ (baseline : List FloatData) (i : Nat),
      (∀ d ∈ others, i + baseline.length ≤ d.length) →
      (compareRows others maxUlpDiff baseline i).isSome := by
  intro baseline
  induction baseline with
  | nil => intro i _; rfl
  | cons bv rest ih =>
    intro i h
    have hrow := compareRow_isSome bv maxUlpDiff others i (fun d hd => by
      have := h d hd
      simp only [List.length_cons] at this
      omega)
    have hrest := ih (i + 1) (fun d hd => by
      have := h d hd
      simp only [List.length_cons] at this
      omega)
    obtain ⟨r, hr⟩ := Option.isSome_iff_exists.mp hrow
    obtain ⟨rs, hrs⟩ := Option.isSome_iff_exists.mp hrest
    simp [compareRows, hr, hrs]

/-! ## Claim theorems -/

/-- Claim C1 (code_bug evidence): the edge-case recorder writes 10,005 element
records, not the 10,003 its header declares. For every floating-point model
the trace written by doTest after the edge-case header has length
5000 + 5000 + 5 = 10,005, while writeFileHeader was called with elementCount
10,003, so the GoldenFile invariant header-followed-by-elementCount-records is
violated by two extra records (a reader honouring the header silently drops
the last two NaN records). -/
theorem c1_edge_case_record_count {α : Type} (M : FloatModel α) (dataType dataSize : Nat) :
    (edgeCaseTrace M).length = 10005 ∧
    (edgeCaseHeader dataType dataSize).elementCount = 10003 ∧
    (edgeCaseTrace M).length ≠ (edgeCaseHeader dataType dataSize).elementCount := by
  have h1 : (edgeCaseTrace M).length = 10005 := by
    simp [edgeCaseTrace, mulLoop_length]
  have h2 : (edgeCaseHeader dataType dataSize).elementCount = 10003 := rfl
  exact ⟨h1, h2, by rw [h1, h2]; omega⟩

/-- Claim C2 counterexample: the scenario B pair (baseline double pattern
0x3FF0000000000000 against 0x3FF0000000000001, tolerance 4) is not counted as
a near match distinct from an exact match: the per-index update increments the
exact-match counter and leaves the near-match counter at zero, so the counts
after processing the pair are (1, 0, 0), not (0, 1, 0). -/
theorem c2_counterexample :
    updateCounts scenarioBBaseline scenarioBComparison 4 (0, 0, 0) = (1, 0, 0) ∧
    updateCounts scenarioBBaseline scenarioBComparison 4 (0, 0, 0) ≠ (0, 1, 0) := by
  constructor
  · decide
  · decide

/-- Claim C2 amended: the comparator declares three per-file counters but its
per-index loop never increments the near-match counter; a non-identical
same-sign pair within the tolerance is counted as an exact match. For the
scenario B pair the computed ULP distance is 1 (within tolerance 4), the pair
passes compareFloats, and processing it turns the counts (0,0,0) into
(1,0,0). -/
theorem c2_amended :
    (∀ (baseline x : FloatData) (maxUlpDiff : Int) (c : Nat × Nat × Nat),
      (updateCounts baseline x maxUlpDiff c).2.1 = c.2.1) ∧
    doubleUlpDiff 0x3FF0000000000000 0x3FF0000000000001 = 1 ∧
    compareFloats scenarioBBaseline scenarioBComparison 4 = true ∧
    updateCounts scenarioBBaseline scenarioBComparison 4 (0, 0, 0) = (1, 0, 0) := by
  refine ⟨?_, by decide, by decide, by decide⟩
  intro baseline x maxUlpDiff c
  unfold updateCounts
  split <;> rfl

/-- Claim C4 counterexample: through the non-reversing read path
(compareFloats.cpp lines 76-105) the round trip is not bit-identical on a
little-endian reader: the two-byte pattern [1, 2] written on a little-endian
host comes back as the pattern [2, 1]. -/
theorem c4_counterexample :
    patternOfMem true (readElementRaw (writeFloat (memOfPattern true [1, 2]) true)) = [2, 1] ∧
    [2, 1] ≠ ([1, 2] : List Nat) := by
  constructor
  · rfl
  · decide

/-- Claim C4 amended: the write-then-read round trip is bit-identical for
every pattern and every combination of writer and reader endianness through
the endian-aware read path (compareFloats.cpp lines 436-472); through the
non-reversing read path (lines 76-105) it is bit-identical only when the
reading host is big-endian. -/
theorem c4_amended :
    (∀ (pattern : List Nat) (hw hr : Bool),
      patternOfMem hr (readElement (writeFloat (memOfPattern hw pattern) hw) hr) = pattern) ∧
    (∀ (pattern : List Nat) (hw : Bool),
      patternOfMem false (readElementRaw (writeFloat (memOfPattern hw pattern) hw)) = pattern) := by
  constructor
  · intro pattern hw hr
    cases hw <;> cases hr <;>
      simp [patternOfMem, readElement, writeFloat, memOfPattern]
  · intro pattern hw
    cases hw <;> simp [patternOfMem, readElementRaw, writeFloat, memOfPattern]

/-- Claim C5 counterexample: the serialized FileHeader does not occupy 20
bytes; at a concrete header its byte image has length 24. -/
theorem c5_counterexample :
    (headerBytes (writeFileHeader 1 8 10000 0)).length = 24 ∧
    (headerBytes (writeFileHeader 1 8 10000 0)).length ≠ 20 := by
  constructor
  · rfl
  · decide

/-- Claim C5 amended: the serialized FileHeader record occupies exactly 24
bytes (4-byte magic plus five 4-byte fields under pack(1)), and the payload
begins immediately after it at offset 24. -/
theorem c5_amended :
    (∀ h : FileHeader, (headerBytes h).length = 24) ∧
    (∀ (h : FileHeader) (payload : List Nat),
      (goldenFileBytes h payload).drop 24 = payload) := by
  have hlen : ∀ h : FileHeader, (headerBytes h).length = 24 := by
    intro h
    simp [headerBytes, u32leBytes]
  refine ⟨hlen, ?_⟩
  intro h payload
  rw [goldenFileBytes, ← hlen h, List.drop_left]

/-- Claim C3 counterexample: with a baseline of 1 element, a second file of 2
elements and a third file of 1 element, the gathering loop of the part_003
comparator aborts the whole category (returns at the mismatch) instead of
excluding the mismatched file and proceeding with files 0 and 2. -/
theorem c3_counterexample :
    gatherFiles [[(1 : Nat)], [2, 3], [4]] = none ∧
    gatherFiles [[(1 : Nat)], [2, 3], [4]] ≠ some [[1], [4]] := by
  constructor
  · rfl
  · decide

/-- Claim C3 amended: a nonempty file whose element count differs from the
first nonempty file's count causes the entire category comparison to be
abandoned with an error message (no per-index comparison occurs for any
file); when all nonempty files share one count, exactly the nonempty files
are retained. gatherFilesSpec states this closed form. -/
theorem c3_amended {α : Type} : ∀ files : List (List α),
    gatherFiles files = gatherFilesSpec files := by
  intro files
  induction files with
  | nil => rfl
  | cons d rest ih =>
    by_cases hd : d.isEmpty
    · have hstep : gatherFiles (d :: rest) = gatherFiles rest := by
        simp [gatherFiles, gatherSameSize, hd]
      have hspec : gatherFilesSpec (d :: rest) = gatherFilesSpec rest := by
        unfold gatherFilesSpec
        rw [List.filter_cons_of_neg (by simp [hd])]
      rw [hstep, hspec, ih]
    · have hne : d.length ≠ 0 := by
        intro hcontra
        exact hd (by simp [List.isEmpty_iff, List.length_eq_zero.mp hcontra])
      have hstep : gatherFiles (d :: rest) = gatherSameSize rest d.length [d] := by
        simp [gatherFiles, gatherSameSize, hd]
      rw [hstep, gatherSameSize_pos rest d.length [d] hne]
      have hfil : (d :: rest).filter (fun e => !e.isEmpty) =
          d :: rest.filter (fun e => !e.isEmpty) :=
        List.filter_cons_of_pos (by simp [hd])
      have hspec : gatherFilesSpec (d :: rest) =
          if (d :: rest.filter (fun e => !e.isEmpty)).all (fun e => e.length == d.length)
          then some (d :: rest.filter (fun e => !e.isEmpty)) else none := by
        unfold gatherFilesSpec
        rw [hfil]
      rw [hspec, List.all_cons, beq_self_eq_true, Bool.true_and,
        all_filter_nonempty (fun e => e.length == d.length) rest, List.singleton_append]

/-- Claim C6 counterexample: two width-10 records whose 80-bit patterns both
decode as extended-precision NaNs (0x7FFFC000000000000000 and
0x7FFFC000000000010000, differing only in payload) are not classified as an
exact match: the comparator's NaN test covers only widths 4 and 8, so the
pair falls through to integer comparison of the low 8 bytes and is classified
as a divergence at the comparator's tolerance 4. -/
theorem c6_counterexample :
    isNaN80 (bytesToNat extNaNRecordA.rawData) = true ∧
    isNaN80 (bytesToNat extNaNRecordB.rawData) = true ∧
    compareFloats extNaNRecordA extNaNRecordB 4 = false := by
  refine ⟨by decide, by decide, by decide⟩

/-- Claim C6 amended: for element records of width 4 or width 8, any two
records whose bytes decode as NaN are classified as an exact match regardless
of payload; width-10 extended records are outside the comparator's NaN test. -/
theorem c6_amended :
    (∀ (a b : FloatData) (maxUlpDiff : Int), a.dataSize = 4 → b.dataSize = 4 →
      isNaN a.rawData a.dataSize = true → isNaN b.rawData b.dataSize = true →
      compareFloats a b maxUlpDiff = true) ∧
    (∀ (a b : FloatData) (maxUlpDiff : Int), a.dataSize = 8 → b.dataSize = 8 →
      isNaN a.rawData a.dataSize = true → isNaN b.rawData b.dataSize = true →
      compareFloats a b maxUlpDiff = true) := by
  constructor <;>
  · intro a b maxUlpDiff ha hb hna hnb
    unfold compareFloats
    rw [ha, hb] at *
    simp [hna, hnb]

/-- Claim C6 witness: two width-4 NaN records with different payloads are an
exact match even at tolerance 0. -/
theorem c6_witness :
    isNaN [0, 0, 0xC0, 0x7F] 4 = true ∧ isNaN [1, 0, 0xC0, 0x7F] 4 = true ∧
    compareFloats ⟨[0, 0, 0xC0, 0x7F], 4⟩ ⟨[1, 0, 0xC0, 0x7F], 4⟩ 0 = true :=
  ⟨by decide, by decide,
    c6_amended.1 ⟨[0, 0, 0xC0, 0x7F], 4⟩ ⟨[1, 0, 0xC0, 0x7F], 4⟩ 0 rfl rfl
      (by decide) (by decide)⟩

/-- Claim C7 counterexample: a same-width sign-crossing pair that the
comparator does not classify as a divergence. The width-10 records holding
extended +1.0 (pattern 0x3FFF8000000000000000) and extended -1.0 (pattern
0xBFFF8000000000000000) are non-NaN, the first strictly positive and the
second strictly negative, yet compareFloats at tolerance 0 returns true (a
match): width-10 records are compared as integers on the low 8 bytes only,
and the extended sign byte lives in the omitted top two bytes, so the two
values have equal low 8 bytes and integer distance 0. -/
theorem c7_counterexample :
    isPos80 (bytesToNat extOneRecord.rawData) ∧
    isNeg80 (bytesToNat extMinusOneRecord.rawData) ∧
    extOneRecord.dataSize = extMinusOneRecord.dataSize ∧
    compareFloats extOneRecord extMinusOneRecord 0 = true := by
  refine ⟨by unfold isPos80; decide, by unfold isNeg80; decide, rfl, by decide⟩

/-- Claim C7 amended: for width-4 and width-8 records holding a strictly
positive and a strictly negative non-NaN value, the ULP distance is computed
as the maximal value (INT32_MAX for width 4, INT64_MAX for width 8) and the
comparator classifies the pair as a divergence for every tolerance below that
maximal distance; width-10 records, however, are compared as integers on
their low 8 bytes, which omit the extended sign byte, so any two width-10
records with equal low 8 bytes (in particular a positive/negative pair with
equal significands) classify as a match for every nonnegative tolerance. -/
theorem c7_amended :
    (∀ (a b : FloatData) (maxUlpDiff : Int),
      a.dataSize = 4 → b.dataSize = 4 → a.rawData.length = 4 → b.rawData.length = 4 →
      isPos32 (bytesToNat a.rawData) → isNeg32 (bytesToNat b.rawData) →
      maxUlpDiff < INT32_MAX →
      floatUlpDiff (bytesToNat a.rawData) (bytesToNat b.rawData) = INT32_MAX ∧
      compareFloats a b maxUlpDiff = false) ∧
    (∀ (a b : FloatData) (maxUlpDiff : Int),
      a.dataSize = 8 → b.dataSize = 8 → a.rawData.length = 8 → b.rawData.length = 8 →
      isPos64 (bytesToNat a.rawData) → isNeg64 (bytesToNat b.rawData) →
      maxUlpDiff < INT64_MAX →
      doubleUlpDiff (bytesToNat a.rawData) (bytesToNat b.rawData) = INT64_MAX ∧
      compareFloats a b maxUlpDiff = false) ∧
    (∀ (a b : FloatData) (maxUlpDiff : Int),
      a.dataSize = 10 → b.dataSize = 10 →
      bytesToUint64 a.rawData 10 = bytesToUint64 b.rawData 10 →
      0 ≤ maxUlpDiff →
      compareFloats a b maxUlpDiff = true) := by
  refine ⟨?_, ?_, ?_⟩
  · intro a b maxUlpDiff h4a h4b hla hlb hpos hneg htol
    obtain ⟨hp1, hp2, hp3⟩ := hpos
    obtain ⟨hn1, hn2, hn3, hn4⟩ := hneg
    have hne : bytesToNat a.rawData ≠ bytesToNat b.rawData := by omega
    have hfe : floatEq32 (bytesToNat a.rawData) (bytesToNat b.rawData) = false := by
      unfold floatEq32 isZero32
      rw [hp3, hn4]
      have e1 : (bytesToNat a.rawData == bytesToNat b.rawData) = false := by simp [hne]
      have e2 : (bytesToNat a.rawData == 0) = false := by simp [hp2]
      have e3 : (bytesToNat a.rawData == 0x80000000) = false := by
        simp only [beq_eq_false_iff_ne, ne_eq]
        omega
      rw [e1, e2, e3]
      rfl
    have hmodb : bytesToNat b.rawData % 2 ^ 32 = bytesToNat b.rawData :=
      Nat.mod_eq_of_lt hn2
    have hta : toInt32 (bytesToNat a.rawData) = (bytesToNat a.rawData : Int) := by
      rw [toInt32, Nat.mod_eq_of_lt (by omega), if_pos hp1]
    have htb : toInt32 (bytesToNat b.rawData) = (bytesToNat b.rawData : Int) - 2 ^ 32 := by
      rw [toInt32, hmodb, if_neg (by omega)]
    have hsa : ¬(toInt32 (bytesToNat a.rawData) < 0) := by
      rw [hta]
      exact Int.not_lt.mpr (Int.natCast_nonneg _)
    have hsb : toInt32 (bytesToNat b.rawData) < 0 := by
      rw [htb]
      have hcast : (bytesToNat b.rawData : Int) < 2 ^ 32 := by exact_mod_cast hn2
      omega
    have hulp : floatUlpDiff (bytesToNat a.rawData) (bytesToNat b.rawData) = INT32_MAX := by
      unfold floatUlpDiff
      rw [if_neg (by simp [hfe]), if_neg (by simp [hp3, hn4]),
        if_neg (fun hcontra => hsa (hcontra.mpr hsb))]
    refine ⟨hulp, ?_⟩
    have htake_a : a.rawData.take 4 = a.rawData := by
      rw [← hla]; exact List.take_length a.rawData
    have htake_b : b.rawData.take 4 = b.rawData := by
      rw [← hlb]; exact List.take_length b.rawData
    have hnaA : isNaN a.rawData 4 = false := by simp [isNaN, htake_a, hp3]
    have hnaB : isNaN b.rawData 4 = false := by simp [isNaN, htake_b, hn4]
    have hlne : a.rawData ≠ b.rawData := fun hcontra => hne (by rw [hcontra])
    unfold compareFloats
    rw [h4a, h4b, hnaA, hnaB, htake_a, htake_b]
    have hcond : ((4 : Nat) == 4) = true := rfl
    rw [if_neg (by decide), if_neg (by decide), if_neg (by decide),
      if_neg (by simp [hlne]), if_pos hcond]
    rw [hulp]
    exact decide_eq_false (Int.not_le.mpr htol)
  · intro a b maxUlpDiff h4a h4b hla hlb hpos hneg htol
    obtain ⟨hp1, hp2, hp3⟩ := hpos
    obtain ⟨hn1, hn2, hn3, hn4⟩ := hneg
    have hne : bytesToNat a.rawData ≠ bytesToNat b.rawData := by omega
    have hfe : floatEq64 (bytesToNat a.rawData) (bytesToNat b.rawData) = false := by
      unfold floatEq64 isZero64
      rw [hp3, hn4]
      have e1 : (bytesToNat a.rawData == bytesToNat b.rawData) = false := by simp [hne]
      have e2 : (bytesToNat a.rawData == 0) = false := by simp [hp2]
      have e3 : (bytesToNat a.rawData == 0x8000000000000000) = false := by
        simp only [beq_eq_false_iff_ne, ne_eq]
        omega
      rw [e1, e2, e3]
      rfl
    have hmodb : bytesToNat b.rawData % 2 ^ 64 = bytesToNat b.rawData :=
      Nat.mod_eq_of_lt hn2
    have hta : toInt64 (bytesToNat a.rawData) = (bytesToNat a.rawData : Int) := by
      rw [toInt64, Nat.mod_eq_of_lt (by omega), if_pos hp1]
    have htb : toInt64 (bytesToNat b.rawData) = (bytesToNat b.rawData : Int) - 2 ^ 64 := by
      rw [toInt64, hmodb, if_neg (by omega)]
    have hsa : ¬(toInt64 (bytesToNat a.rawData) < 0) := by
      rw [hta]
      exact Int.not_lt.mpr (Int.natCast_nonneg _)
    have hsb : toInt64 (bytesToNat b.rawData) < 0 := by
      rw [htb]
      have hcast : (bytesToNat b.rawData : Int) < 2 ^ 64 := by exact_mod_cast hn2
      omega
    have hulp : doubleUlpDiff (bytesToNat a.rawData) (bytesToNat b.rawData) = INT64_MAX := by
      unfold doubleUlpDiff
      rw [if_neg (by simp [hfe]), if_neg (by simp [hp3, hn4]),
        if_neg (fun hcontra => hsa (hcontra.mpr hsb))]
    refine ⟨hulp, ?_⟩
    have htake_a : a.rawData.take 8 = a.rawData := by
      rw [← hla]; exact List.take_length a.rawData
    have htake_b : b.rawData.take 8 = b.rawData := by
      rw [← hlb]; exact List.take_length b.rawData
    have hnaA : isNaN a.rawData 8 = false := by simp [isNaN, htake_a, hp3]
    have hnaB : isNaN b.rawData 8 = false := by simp [isNaN, htake_b, hn4]
    have hlne : a.rawData ≠ b.rawData := fun hcontra => hne (by rw [hcontra])
    unfold compareFloats
    rw [h4a, h4b, hnaA, hnaB, htake_a, htake_b]
    have hcond : ((8 : Nat) == 8) = true := rfl
    rw [if_neg (by decide), if_neg (by decide), if_neg (by decide),
      if_neg (by simp [hlne]), if_neg (by decide), if_pos hcond]
    rw [hulp]
    exact decide_eq_false (Int.not_le.mpr htol)
  · intro a b maxUlpDiff h10a h10b hu htol
    have hna : isNaN a.rawData 10 = false := by simp [isNaN]
    have hnb : isNaN b.rawData 10 = false := by simp [isNaN]
    unfold compareFloats
    rw [h10a, h10b, hna, hnb]
    rw [if_neg (by decide), if_neg (by decide), if_neg (by decide)]
    by_cases hm : (a.rawData.take 10 == b.rawData.take 10) = true
    · rw [if_pos hm]
    · rw [if_neg hm, if_neg (by decide), if_neg (by decide), hu]
      have hz : (bytesToUint64 b.rawData 10 + 2 ^ 64 - bytesToUint64 b.rawData 10) % 2 ^ 64
          = 0 := by omega
      rw [hz]
      have ht0 : toInt64 0 = 0 := by rw [toInt64]; norm_num
      rw [ht0, abs_zero]
      exact decide_eq_true htol

/-- Claim C7 witness: the float pair 1.0 (pattern 0x3F800000) against -1.0
(pattern 0xBF800000) at tolerance 4 gets the maximal ULP distance and is a
divergence. -/
theorem c7_witness :
    isPos32 (bytesToNat ([0, 0, 0x80, 0x3F] : List Nat)) ∧
    isNeg32 (bytesToNat ([0, 0, 0x80, 0xBF] : List Nat)) ∧
    (4 : Int) < INT32_MAX ∧
    (floatUlpDiff (bytesToNat ([0, 0, 0x80, 0x3F] : List Nat))
        (bytesToNat ([0, 0, 0x80, 0xBF] : List Nat)) = INT32_MAX ∧
      compareFloats ⟨[0, 0, 0x80, 0x3F], 4⟩ ⟨[0, 0, 0x80, 0xBF], 4⟩ 4 = false) :=
  ⟨by unfold isPos32; decide, by unfold isNeg32; decide, by decide,
    c7_amended.1 ⟨[0, 0, 0x80, 0x3F], 4⟩ ⟨[0, 0, 0x80, 0xBF], 4⟩ 4
      rfl rfl rfl rfl (by unfold isPos32; decide) (by unfold isNeg32; decide)
      (by decide)⟩

/-- Claim C8 (code_bug evidence): on the FPUSettings.arm64.h backend, setting
the rounding mode FE_DOWNWARD (enum value 0x0400, as declared in that same
file) and then reading it back yields 1 — the raw two-bit RMode field — and
never the enum value 0x0400, because fegetround shifts the field down by 22
while fesetround placed the enum-encoded bits there via a shift by 12. The
set-then-get round trip therefore does not return the same four-value enum. -/
theorem c8_arm64_roundmode_bug :
    (∀ fpcr : Nat, arm64_fegetround (arm64_fesetround fpcr FE_DOWNWARD) = 1) ∧
    (1 : Nat) ≠ FE_DOWNWARD := by
  constructor
  · intro fpcr
    unfold arm64_fesetround arm64_fegetround FE_DOWNWARD
    rw [lor_land_distrib, Nat.land_assoc]
    have h2 : (0xFFFFFFFFFF3FFFFF &&& 0xC00000 : Nat) = 0 := by decide
    rw [h2]
    have h3 : fpcr &&& 0 = 0 := by simp
    rw [h3]
    decide
  · decide

/-- Claim C9 counterexample: the x87 backend does not return a distinguished
error for an out-of-range rounding mode: fesetround with the invalid value
0x0123 returns 0, the same success code it returns for every mode, while
silently writing the bits into the control word. -/
theorem c9_counterexample :
    (x87_fesetround 0x037F 0x0123).2 = 0 ∧
    0x0123 ≠ FE_TONEAREST ∧ 0x0123 ≠ FE_DOWNWARD ∧
    0x0123 ≠ FE_UPWARD ∧ 0x0123 ≠ FE_TOWARDZERO := by
  refine ⟨rfl, by decide, by decide, by decide, by decide⟩

/-- Claim C9 amended: only the software-emulated backend returns a
distinguished error (1, with the state unchanged) for a rounding mode outside
the four defined values; the x87, SSE and NEON backends return 0
unconditionally for every argument, writing the supplied bits into the
control register. -/
theorem c9_amended :
    (∀ (cur : SoftRoundMode) (m : Nat),
      m ≠ FE_TONEAREST → m ≠ FE_DOWNWARD → m ≠ FE_UPWARD → m ≠ FE_TOWARDZERO →
      soft_fesetround m cur = (cur, 1)) ∧
    (∀ st m : Nat, (x87_fesetround st m).2 = 0) ∧
    (∀ st m : Nat, (sse_fesetround st m).2 = 0) ∧
    (∀ st m : Nat, (neon_fesetround st m).2 = 0) := by
  refine ⟨?_, fun st m => rfl, fun st m => rfl, fun st m => rfl⟩
  intro cur m h1 h2 h3 h4
  unfold soft_fesetround
  rw [if_neg h2, if_neg h3, if_neg h4, if_neg h1]

/-- Claim C9 witness: the out-of-range mode 0x2A makes the software-emulated
backend return error code 1 and leave its rounding state unchanged. -/
theorem c9_witness :
    (0x2A ≠ FE_TONEAREST ∧ 0x2A ≠ FE_DOWNWARD ∧ 0x2A ≠ FE_UPWARD ∧ 0x2A ≠ FE_TOWARDZERO) ∧
    soft_fesetround 0x2A SoftRoundMode.up = (SoftRoundMode.up, 1) :=
  ⟨⟨by decide, by decide, by decide, by decide⟩,
    c9_amended.1 SoftRoundMode.up 0x2A (by decide) (by decide) (by decide) (by decide)⟩

/-- Claim C10 (confirmed): in the per-index loop every non-baseline file is
indexed at every baseline index with no bounds check, so all accesses are in
bounds (the Option-returning embedding yields some) exactly under the
precondition that every retained file holds at least as many elements as the
baseline; and no code path establishes that precondition: the gathering loop
retains every file with nonempty data, so a shorter second file passes
gathering and the loop then hits an out-of-bounds access (none). -/
theorem c10_unchecked_indexing :
    (∀ (baseline : List FloatData) (others : List (List FloatData)) (maxUlpDiff : Int),
      (∀ d ∈ others, baseline.length ≤ d.length) →
      (compareLoop (baseline :: others) maxUlpDiff).isSome) ∧
    (gatherValid [[sampleRecord, sampleRecord], [sampleRecord]] =
        [[sampleRecord, sampleRecord], [sampleRecord]] ∧
      compareLoop [[sampleRecord, sampleRecord], [sampleRecord]] 4 = none) := by
  refine ⟨?_, rfl, rfl⟩
  intro baseline others maxUlpDiff h
  unfold compareLoop
  exact compareRows_isSome maxUlpDiff others baseline 0 (fun d hd => by simpa using h d hd)

/-- Claim C10 witness: with a one-element baseline and a one-element second
file the precondition holds and the loop completes. -/
theorem c10_witness :
    (∀ d ∈ [[sampleRecord]], ([sampleRecord] : List FloatData).length ≤ d.length) ∧
    (compareLoop [[sampleRecord], [sampleRecord]] 4).isSome = true :=
  ⟨by decide, c10_unchecked_indexing.1 [sampleRecord] [[sampleRecord]] 4 (by decide)⟩

end Streflop
